import Mathlib

/-!
# Verification of the `grafana-auth` relation-interface library

This file embeds the two revisions of the grafana-auth interface library
that live in this repository:

* revision 1: `lib/charms/grafana_auth_interface/v0/grafana_auth_interface.py`
  (classes `GrafanaAuthProvides` / `GrafanaAuthRequires`, databag keys
  `grafana_auth` / `grafana_url`);
* revision 3: `tests/integration/auth_provider_tester/lib/charms/
  grafana_auth_interface/v0/grafana_auth_interface.py`
  (classes `AuthProvider` / `AuthRequirer` / `GrafanaAuthProxyProvider`,
  databag keys `auth` / `urls`).

The relation databag is a key → string map.  A stored string is either the
output of `json.dumps` on some JSON value (modelled as `DbVal.json j`, since
`json.dumps` / `json.loads` round-trip) or a string that is *not* valid JSON
(modelled as `DbVal.raw s`); `json.loads` raises `JSONDecodeError` exactly on
the latter.  Handlers are embedded as pure functions from their inputs
(leadership flag, the relevant databags / relation) to the new databag state,
the emitted event, and the warnings logged; a Python exception escaping the
handler is an `Except.error`.

The two JSON-Schema documents are embedded as decision procedures following
JSON Schema draft-07 semantics for exactly the keywords the documents use
(`type`, `required`, `properties`, `anyOf`, `items`).  Draft-07 validators
ignore unrecognized keywords; this matters for both requirer schemas, whose
`url` / `urls` member sits *beside* `required` instead of inside a
`properties` object, and is therefore ignored by the validator.
-/

/-- A JSON value.  Objects are association lists (Python dicts have unique
keys; all objects built here do too). -/
inductive Json where
  | null
  | bool (b : Bool)
  | num (n : Int)
  | str (s : String)
  | arr (elems : List Json)
  | obj (fields : List (String × Json))
deriving Repr

/-- Look a key up in a JSON object (`None` on non-objects, like `dict.get`
after an `isinstance` check; the schemas only reach this under a `type:
object` check). -/
def Json.lookup : Json → String → Option Json
  | .obj fields, k => List.lookup k fields
  | _, _ => none

/-- Returns `true` iff the value is a JSON object. -/
def Json.isObj : Json → Bool
  | .obj _ => true
  | _ => false

/-- Returns `true` iff the object has the key (draft-07 `required`). -/
def Json.hasKey (j : Json) (k : String) : Bool :=
  (j.lookup k).isSome

/-- Python truthiness of a decoded JSON value: `None`, `False`, `0`, `""`,
`[]` and `{}` are falsy. -/
def Json.isTruthy : Json → Bool
  | .null => false
  | .bool b => b
  | .num n => n != 0
  | .str s => s != ""
  | .arr elems => !elems.isEmpty
  | .obj fields => !fields.isEmpty

/-- A value stored in a relation databag: either `json.dumps j` for a JSON
value `j`, or a string that is not valid JSON (on which `json.loads`
raises). -/
inductive DbVal where
  | json (j : Json)
  | raw (s : String)
deriving Repr

/-- Python truthiness of the *stored string*: `json.dumps` output is never
empty, so only the raw empty string is falsy. -/
def DbVal.strTruthy : DbVal → Bool
  | .json _ => true
  | .raw s => s != ""

/-- Python's `json.loads` applied to the stored string, with the
`except JSONDecodeError` fallback of `_load_relation_data`: a string that is
not valid JSON is kept as the raw string. -/
def DbVal.decodeOrRaw : DbVal → Json
  | .json j => j
  | .raw s => .str s

/-- One application's namespace of a relation databag. -/
def Databag := List (String × DbVal)

instance : Repr Databag := inferInstanceAs (Repr (List (String × DbVal)))

/-- Databag key lookup. -/
def Databag.lookup (bag : Databag) (k : String) : Option DbVal :=
  List.lookup k bag

/-- Python dict assignment `bag[k] = v` (replaces in place, appends if the
key is new). -/
def Databag.insert (bag : Databag) (k : String) (v : DbVal) : Databag :=
  match bag with
  | [] => [(k, v)]
  | (k', v') :: rest =>
      if k' = k then (k, v) :: rest else (k', v') :: Databag.insert rest k v

/-- Model of `_load_relation_data` (both revisions' shape; only revision 1 calls it):
JSON-decodes every value, keeping as a raw string any value that fails to
decode. -/
def load_relation_data (bag : Databag) : List (String × Json) :=
  bag.map (fun kv => (kv.1, kv.2.decodeOrRaw))

/-- Exceptions a handler can let escape to the embedding application. -/
inductive PyError where
  | typeError
  | jsonDecodeError
  | indexError
deriving Repr, DecidableEq

/-! ## JSON-Schema validators

Each schema document of the source is embedded as a decision procedure with
draft-07 semantics for the keywords it uses.  A `properties` entry
constrains a member only when the member is present. -/

/-- draft-07 `"type": "string"`. -/
def jsIsString : Json → Bool
  | .str _ => true
  | _ => false

/-- draft-07 `"type": "boolean"`. -/
def jsIsBoolean : Json → Bool
  | .bool _ => true
  | _ => false

/-- draft-07 `"type": "integer"`. -/
def jsIsInteger : Json → Bool
  | .num _ => true
  | _ => false

/-- draft-07 `"type": "array"` with `"items": {"type": "string"}`. -/
def jsIsStringArray : Json → Bool
  | .arr elems => elems.all jsIsString
  | _ => false

/-- Apply a `properties` entry: the subschema applies only when the member
is present. -/
def checkOptProp (j : Json) (k : String) (sub : Json → Bool) : Bool :=
  match j.lookup k with
  | some v => sub v
  | none => true

/-- The `proxy` subschema of `PROVIDER_JSON_SCHEMA` (identical in both
revisions): an object with `header_name` and `header_property` required,
and typed optional fields. -/
def proxySchemaValid (j : Json) : Bool :=
  j.isObj && j.hasKey "header_name" && j.hasKey "header_property"
    && checkOptProp j "enabled" jsIsBoolean
    && checkOptProp j "header_name" jsIsString
    && checkOptProp j "header_property" jsIsString
    && checkOptProp j "auto_sign_up" jsIsBoolean
    && checkOptProp j "sync_ttl" jsIsInteger
    && checkOptProp j "whitelist" jsIsStringArray
    && checkOptProp j "headers" jsIsStringArray
    && checkOptProp j "headers_encoded" jsIsBoolean
    && checkOptProp j "enable_login_token" jsIsBoolean

/-- The `auth` subschema of `PROVIDER_JSON_SCHEMA`: an object, `anyOf` a
single alternative requiring the `proxy` key, `properties.proxy` the proxy
subschema. -/
def authSchemaValid (j : Json) : Bool :=
  j.isObj && j.hasKey "proxy" && checkOptProp j "proxy" proxySchemaValid

/-- The `application-data` subschema of `PROVIDER_JSON_SCHEMA`. -/
def appDataProviderValid (j : Json) : Bool :=
  j.isObj && j.hasKey "auth" && checkOptProp j "auth" authSchemaValid

/-- Validation of a full instance document against `PROVIDER_JSON_SCHEMA`. -/
def providerSchemaTopValid (j : Json) : Bool :=
  j.isObj && j.hasKey "application-data"
    && checkOptProp j "application-data" appDataProviderValid

/-- Model of `GrafanaAuthRequires._app_relation_data_is_valid` (revision 1) and
`GrafanaAuthProxyProvider._validate_auth_config_json_schema`'s check shape:
wrap the value as `{"application-data": v}` and validate against the
provider schema, returning `False` instead of raising `ValidationError`. -/
def validate_provider_schema (v : Json) : Bool :=
  providerSchemaTopValid (.obj [("application-data", v)])

/-- The `application-data` subschema of revision 1's
`REQUIRER_JSON_SCHEMA`: an object with `url` required.  The `url` member of
the schema document sits beside `required` instead of inside a `properties`
object; as an unrecognized keyword it is ignored by a draft-07 validator,
so the *value* under `url` is unconstrained. -/
def appDataRequirerV1Valid (j : Json) : Bool :=
  j.isObj && j.hasKey "url"

/-- Revision 1's `REQUIRER_JSON_SCHEMA` applied to a full instance. -/
def requirerSchemaV1TopValid (j : Json) : Bool :=
  j.isObj && j.hasKey "application-data"
    && checkOptProp j "application-data" appDataRequirerV1Valid

/-- Model of `GrafanaAuthProvides._app_relation_data_is_valid` (revision 1): wrap as
`{"application-data": v}` and validate against revision 1's requirer
schema. -/
def validate_requirer_schema_v1 (v : Json) : Bool :=
  requirerSchemaV1TopValid (.obj [("application-data", v)])

/-- The `application-data` subschema of revision 3's
`REQUIRER_JSON_SCHEMA`: an object with `urls` required.  As in revision 1,
the `urls` member (`{"type": "list"}`) is an unrecognized keyword outside
`properties` and is ignored, so the value under `urls` is unconstrained. -/
def appDataRequirerV3Valid (j : Json) : Bool :=
  j.isObj && j.hasKey "urls"

/-- Revision 3's `REQUIRER_JSON_SCHEMA` applied to a full instance. -/
def requirerSchemaV3TopValid (j : Json) : Bool :=
  j.isObj && j.hasKey "application-data"
    && checkOptProp j "application-data" appDataRequirerV3Valid

/-- The `validate({"application-data": {"urls": self._urls}}, ...)` call of
`AuthRequirer._set_urls_in_relation_data` (revision 3), as a boolean. -/
def validate_requirer_schema_v3 (v : Json) : Bool :=
  requirerSchemaV3TopValid (.obj [("application-data", v)])

/-! ## Revision 1: `GrafanaAuthProvides` / `GrafanaAuthRequires` -/

namespace Rev1

/-- Event `GrafanaUrlAvailableEvent`: its constructor requires both `grafana_url`
and `relation_id`. -/
structure GrafanaUrlAvailableEvent where
  grafana_url : Json
  relation_id : Int
deriving Repr

/-- Event `AuthConfAvailableEvent` (revision 1): its constructor requires both
`auth_conf` and `relation_id`. -/
structure AuthConfAvailableEvent where
  auth_conf : Json
  relation_id : Int
deriving Repr

/-- Model of `self.on.grafana_url_available.emit(**kwargs)`: the framework constructs
`GrafanaUrlAvailableEvent(handle, **kwargs)`, so a call that omits the
required `relation_id` argument raises `TypeError`. -/
def emit_grafana_url_available (grafana_url : Json) (relation_id : Option Int) :
    Except PyError GrafanaUrlAvailableEvent :=
  match relation_id with
  | some i => .ok { grafana_url := grafana_url, relation_id := i }
  | none => .error .typeError

/-- Model of `self.on.grafana_auth_config_available.emit(**kwargs)`: constructing
`AuthConfAvailableEvent` without `relation_id` raises `TypeError`. -/
def emit_grafana_auth_config_available (auth_conf : Json) (relation_id : Option Int) :
    Except PyError AuthConfAvailableEvent :=
  match relation_id with
  | some i => .ok { auth_conf := auth_conf, relation_id := i }
  | none => .error .typeError

/-- Model of `GrafanaAuthProvides._build_conf_dict`: `{"auth": {auth_type:
{**kwargs}}}`. -/
def build_conf_dict (auth_type : String) (kwargs : List (String × Json)) : Json :=
  .obj [("auth", .obj [(auth_type, .obj kwargs)])]

/-- Model of `GrafanaAuthProvides._set_auth_config_in_relation_data`: on relation
joined, the leader loads its own databag and writes
`grafana_auth = json.dumps(self._auth_conf)` only when
`relation_data_dict.get("grafana_auth")` is falsy (absent, or decoding to a
falsy value). -/
def set_auth_config_in_relation_data (is_leader : Bool) (auth_conf : Json)
    (relation_data : Databag) : Databag :=
  if !is_leader then relation_data
  else
    let relation_data_dict := load_relation_data relation_data
    match List.lookup "grafana_auth" relation_data_dict with
    | some current =>
        if current.isTruthy then relation_data
        else relation_data.insert "grafana_auth" (.json auth_conf)
    | none => relation_data.insert "grafana_auth" (.json auth_conf)

/-- Model of `GrafanaAuthProvides._on_grafana_auth_relation_changed`: the leader
loads the peer databag, returns on empty data, missing or falsy
`grafana_url`, or failed requirer-schema validation; otherwise calls
`self.on.grafana_url_available.emit(grafana_url=grafana_url)` — with no
`relation_id` argument. -/
def provides_on_relation_changed (is_leader : Bool) (peer_data : Databag) :
    Except PyError (Option GrafanaUrlAvailableEvent) :=
  if !is_leader then .ok none
  else
    let relation_data := load_relation_data peer_data
    if relation_data.isEmpty then .ok none
    else
      match List.lookup "grafana_url" relation_data with
      | none => .ok none
      | some grafana_url =>
          if !grafana_url.isTruthy then .ok none
          else if !validate_requirer_schema_v1 grafana_url then .ok none
          else (emit_grafana_url_available grafana_url none).map some

/-- Model of `GrafanaAuthRequires._on_grafana_auth_relation_changed`: the leader
loads the peer databag, returns on empty data, missing or falsy
`grafana_auth`, or failed provider-schema validation; otherwise calls
`self.on.grafana_auth_config_available.emit(auth_conf=auth_conf)` — with no
`relation_id` argument. -/
def requires_on_relation_changed (is_leader : Bool) (peer_data : Databag) :
    Except PyError (Option AuthConfAvailableEvent) :=
  if !is_leader then .ok none
  else
    let relation_data := load_relation_data peer_data
    if relation_data.isEmpty then .ok none
    else
      match List.lookup "grafana_auth" relation_data with
      | none => .ok none
      | some auth_conf =>
          if !auth_conf.isTruthy then .ok none
          else if !validate_provider_schema auth_conf then .ok none
          else (emit_grafana_auth_config_available auth_conf none).map some

/-- Model of `GrafanaAuthRequires._set_grafana_url_in_relation_data`: on relation
joined, the leader writes `grafana_url = json.dumps({"url": grafana_url})`
unconditionally (no emptiness or schema check). -/
def set_grafana_url_in_relation_data (is_leader : Bool) (grafana_url : String)
    (relation_data : Databag) : Databag :=
  if !is_leader then relation_data
  else relation_data.insert "grafana_url" (.json (.obj [("url", .str grafana_url)]))

end Rev1

/-! ## Revision 3: `AuthProvider` / `AuthRequirer` / `GrafanaAuthProxyProvider` -/

/-- A relation as seen by revision 3's handlers: its id and the two
application namespaces of its databag.  `model.get_relation(name)` yields
`Option JujuRelation`. -/
structure JujuRelation where
  id : Int
  providerData : Databag
  requirerData : Databag

namespace Rev3

/-- Event `UrlsAvailableEvent`: constructor requires `urls` and `relation_id`. -/
structure UrlsAvailableEvent where
  urls : Json
  relation_id : Int
deriving Repr

/-- Event `AuthConfAvailableEvent` (revision 3): constructor requires `auth` and
`relation_id`. -/
structure AuthConfAvailableEvent where
  auth : Json
  relation_id : Int
deriving Repr

/-- Model of `AuthProvider._validate_auth_config_json_schema`: the base
implementation always returns `False`. -/
def base_validate_auth_config_json_schema : Bool := false

/-- Model of `GrafanaAuthProxyProvider._validate_auth_config_json_schema`:
`validate({"application-data": {"auth": self._auth_config}}, ...)` against
the provider schema, `False` on `ValidationError`. -/
def proxy_validate_auth_config_json_schema (auth_config : Json) : Bool :=
  validate_provider_schema (.obj [("auth", auth_config)])

/-- Model of `AuthProvider._set_auth_config_in_relation_data` (also observed for
`leader_elected`): the leader, given an existing relation and a non-empty
`self._auth_config`, runs the JSON-schema self-check — logging a warning on
failure but *not* returning — and then always writes
`relation_data["auth"] = json.dumps(self._auth_config)`.  Returns the new
relation state and the warnings logged. -/
def set_auth_config_in_relation_data (is_leader : Bool) (auth_config : Json)
    (validate_result : Bool) (relation : Option JujuRelation) : Option JujuRelation × List String :=
  if !is_leader then (relation, [])
  else
    match relation with
    | none => (none, ["Relation has not been created yet"])
    | some r =>
        if !auth_config.isTruthy then
          (some r, ["No authentication configuration was given"])
        else
          let warnings :=
            if !validate_result then
              ["Authentication configuration did not pass JSON schema validation"]
            else []
          (some { r with
                    providerData := r.providerData.insert "auth" (.json auth_config) },
           warnings)

/-- Model of `AuthProvider._get_urls_from_relation_data` (observed for
`relation_changed` and `pebble_ready`): the leader, given an existing
relation, reads `relation.data[relation.app].get("urls", "")`; a missing or
falsy value returns with a log line; otherwise `urls = json.loads(urls_json)`
runs *without* a `try`, so a stored string that is not valid JSON raises
`JSONDecodeError`; on success emits `urls_available` with
`relation_id=relation.id`. -/
def get_urls_from_relation_data (is_leader : Bool) (relation : Option JujuRelation) :
    Except PyError (Option UrlsAvailableEvent) :=
  if !is_leader then .ok none
  else
    match relation with
    | none => .ok none
    | some r =>
        match r.requirerData.lookup "urls" with
        | none => .ok none
        | some v =>
            if !v.strTruthy then .ok none
            else
              match v with
              | .raw _ => .error .jsonDecodeError
              | .json urls => .ok (some { urls := urls, relation_id := r.id })

/-- Model of `AuthRequirer._set_urls_in_relation_data` (also observed for
`leader_elected`): the leader, given an existing relation, logs and skips
when `self._urls` is empty or when
`validate({"application-data": {"urls": self._urls}}, REQUIRER_JSON_SCHEMA)`
raises; otherwise writes `relation_data["urls"] = json.dumps(self._urls)`. -/
def set_urls_in_relation_data (is_leader : Bool) (urls : List String)
    (relation : Option JujuRelation) : Option JujuRelation × List String :=
  if !is_leader then (relation, [])
  else
    match relation with
    | none => (none, ["Relation has not been created yet"])
    | some r =>
        if urls.isEmpty then (some r, ["No urls were given"])
        else if !validate_requirer_schema_v3 (.obj [("urls", .arr (urls.map .str))]) then
          (some r, ["urls did not pass JSON schema validation"])
        else
          (some { r with
                    requirerData :=
                      r.requirerData.insert "urls" (.json (.arr (urls.map .str))) },
           [])

/-- Model of `AuthRequirer._get_auth_config_from_relation_data` (observed for
`relation_changed` and `pebble_ready`): the leader, given an existing
relation, reads `relation.data[relation.app].get("auth", "")`; a missing or
falsy value returns with a log line; otherwise
`auth_conf = json.loads(auth_conf_json)` runs *without* a `try` (raising on
non-JSON) and the handler emits `auth_conf_available` with
`relation_id=relation.id` — with **no** schema validation of `auth_conf`. -/
def get_auth_config_from_relation_data (is_leader : Bool) (relation : Option JujuRelation) :
    Except PyError (Option AuthConfAvailableEvent) :=
  if !is_leader then .ok none
  else
    match relation with
    | none => .ok none
    | some r =>
        match r.providerData.lookup "auth" with
        | none => .ok none
        | some v =>
            if !v.strTruthy then .ok none
            else
              match v with
              | .raw _ => .error .jsonDecodeError
              | .json auth_conf => .ok (some { auth := auth_conf, relation_id := r.id })

/-- Model of `GrafanaAuthProxyProvider.__init__`'s construction of
`self._auth_config = {"proxy": config_options}`: `enabled`, `header_name`,
`header_property` and `auto_sign_up` always set; `sync_ttl`,
`headers_encoded`, `enable_login_token` set when not `None`; `whitelist`
and `headers` set when not `None` *and* non-empty. -/
def grafana_auth_proxy_provider_config (header_name header_property : String)
    (auto_sign_up : Bool) (sync_ttl : Option Int) (whitelist : Option (List String))
    (headers : Option (List String)) (headers_encoded : Option Bool)
    (enable_login_token : Option Bool) : Json :=
  .obj [("proxy", .obj (
    [("enabled", .bool true),
     ("header_name", .str header_name),
     ("header_property", .str header_property),
     ("auto_sign_up", .bool auto_sign_up)]
    ++ (match sync_ttl with
        | some t => [("sync_ttl", Json.num t)]
        | none => [])
    ++ (match whitelist with
        | some w => if w.isEmpty then [] else [("whitelist", Json.arr (w.map .str))]
        | none => [])
    ++ (match headers with
        | some hs => if hs.isEmpty then [] else [("headers", Json.arr (hs.map .str))]
        | none => [])
    ++ (match headers_encoded with
        | some b => [("headers_encoded", Json.bool b)]
        | none => [])
    ++ (match enable_login_token with
        | some b => [("enable_login_token", Json.bool b)]
        | none => [])))]

/-- Model of `AuthProvider.__init__`'s container access:
`container = list(self._charm.meta.containers.values())[0]` runs *before*
the `len(...) == 1` guard, so a charm with zero containers raises
`IndexError`; with exactly one container the `pebble_ready` event of that
container is observed (`some name`); with more than one, none is. -/
def auth_provider_init_observe (containers : List String) :
    Except PyError (Option String) :=
  match containers with
  | [] => .error .indexError
  | c :: rest => .ok (if rest.isEmpty then some c else none)

/-- Model of `AuthRequirer.__init__`: it performs the same container access and guard as
`AuthProvider.__init__`. -/
def auth_requirer_init_observe (containers : List String) :
    Except PyError (Option String) :=
  match containers with
  | [] => .error .indexError
  | c :: rest => .ok (if rest.isEmpty then some c else none)

end Rev3

/-! ## Sample documents used in concrete scenarios -/

/-- A revision-1 `grafana_auth` value whose only mode key is the
unrecognized `wrong_mode`. -/
def wrongModeAuthV1 : Json :=
  .obj [("auth", .obj [("wrong_mode", .obj [("enabled", .bool true)])])]

/-- A revision-1 `grafana_auth` value whose `proxy` document is missing
`header_name`. -/
def missingHeaderAuthV1 : Json :=
  .obj [("auth", .obj [("proxy", .obj [("header_property", .str "username")])])]

/-- A schema-valid revision-1 `grafana_auth` value. -/
def validProxyAuthV1 : Json :=
  .obj [("auth", .obj [("proxy", .obj
    [("enabled", .bool true),
     ("header_name", .str "X-WEBAUTH-USER"),
     ("header_property", .str "username"),
     ("auto_sign_up", .bool false)])])]

/-- A revision-3 `auth` value whose only mode key is the unrecognized
`wrong_mode`. -/
def wrongModeAuthV3 : Json :=
  .obj [("wrong_mode", .obj [("enabled", .bool true)])]

/-- The revision-1 auth configuration built by `GrafanaAuthProvides` for the
spec's proxy scenario. -/
def sampleAuthConfV1 : Json :=
  Rev1.build_conf_dict "proxy"
    [("header_name", .str "X-WEBAUTH-USER"),
     ("header_property", .str "username"),
     ("auto_sign_up", .bool false)]

/-- The `self._auth_config` built by `GrafanaAuthProxyProvider` for
`header_name="X-WEBAUTH-USER", header_property="username",
auto_sign_up=False` and all optional arguments left at `None`. -/
def exampleProxyConfig : Json :=
  Rev3.grafana_auth_proxy_provider_config "X-WEBAUTH-USER" "username" false
    none none none none none

/-! ## Helper lemmas -/

/-- Looking a key up after `_load_relation_data` decodes exactly the stored
value for that key. -/
theorem lookup_load_relation_data (bag : Databag) (k : String) :
    List.lookup k (load_relation_data bag) =
      (bag.lookup k).map DbVal.decodeOrRaw := by
  induction bag with
  | nil => rfl
  | cons kv rest ih =>
      show List.lookup k ((kv.1, kv.2.decodeOrRaw) :: load_relation_data rest) = _
      show _ = Option.map DbVal.decodeOrRaw (List.lookup k (kv :: rest))
      rw [List.lookup, List.lookup]
      cases h : k == kv.1 with
      | true => simp
      | false => simpa using ih

/-- A list with a successful lookup is not empty. -/
theorem isEmpty_false_of_lookup {α : Type} (l : List (String × α)) (k : String)
    (v : α) (h : List.lookup k l = some v) : l.isEmpty = false := by
  cases l with
  | nil => simp [List.lookup] at h
  | cons _ _ => rfl

/-- Inserting then looking up the same key yields the inserted value. -/
theorem Databag.lookup_insert (bag : Databag) (k : String) (v : DbVal) :
    (bag.insert k v).lookup k = some v := by
  induction bag with
  | nil => simp [Databag.insert, Databag.lookup, List.lookup]
  | cons kv rest ih =>
      unfold Databag.insert
      by_cases h : kv.1 = k
      · simp [h, Databag.lookup, List.lookup]
      · simp only [h, if_false]
        show List.lookup k (kv :: Databag.insert rest k v) = some v
        rw [List.lookup]
        have : (k == kv.1) = false := by
          simp [BEq.beq]
          exact fun he => h he.symm
        rw [this]
        exact ih

/-- The revision-1 requirer's relation-changed handler emits nothing when
the `grafana_auth` key is absent from the peer databag. -/
theorem rev1_requires_no_event_of_missing (bag : Databag)
    (hlook : bag.lookup "grafana_auth" = none) :
    Rev1.requires_on_relation_changed true bag = .ok none := by
  have hl : List.lookup "grafana_auth" (load_relation_data bag) = none := by
    rw [lookup_load_relation_data, hlook]; rfl
  unfold Rev1.requires_on_relation_changed
  simp only [Bool.not_true, if_neg (by simp : ¬(false = true))]
  cases he : (load_relation_data bag).isEmpty with
  | true => simp [he]
  | false => simp [he, hl]

/-- The revision-1 requirer's relation-changed handler emits nothing when
the stored `grafana_auth` value decodes to a document failing
provider-schema validation. -/
theorem rev1_requires_no_event_of_invalid (bag : Databag) (v : DbVal)
    (hlook : bag.lookup "grafana_auth" = some v)
    (hval : validate_provider_schema v.decodeOrRaw = false) :
    Rev1.requires_on_relation_changed true bag = .ok none := by
  have hl : List.lookup "grafana_auth" (load_relation_data bag) =
      some v.decodeOrRaw := by
    rw [lookup_load_relation_data, hlook]; rfl
  have hne : (load_relation_data bag).isEmpty = false :=
    isEmpty_false_of_lookup _ _ _ hl
  unfold Rev1.requires_on_relation_changed
  simp only [Bool.not_true, if_neg (by simp : ¬(false = true)), hne, hl]
  cases htr : (v.decodeOrRaw).isTruthy <;> simp [htr, hval]

/-! ## Claims -/

/-- C1 counterexample: the claim fails in revision 3.  The revision-3
requirer performs no schema validation: with the peer's `auth` value
decoding to `{"wrong_mode": {...}}`, `_get_auth_config_from_relation_data`
emits `auth_conf_available` anyway. -/
theorem c1_counterexample :
    Rev3.get_auth_config_from_relation_data true
        (some { id := 7,
                providerData := [("auth", .json wrongModeAuthV3)],
                requirerData := [] }) =
      .ok (some { auth := wrongModeAuthV3, relation_id := 7 }) := rfl

/-- C1 (amended): in revision 1 the requirer emits no config-available
event when the peer's auth document fails provider-schema validation — in
particular for a proxy document missing `header_name` and for a document
whose only mode key is `wrong_mode`; the revision-3 requirer instead
validates nothing and emits `auth_conf_available` for every JSON-decodable
`auth` value. -/
theorem c1_requirer_invalid_auth_no_event :
    (∀ (bag : Databag) (j : Json),
        bag.lookup "grafana_auth" = some (.json j) →
        validate_provider_schema j = false →
        Rev1.requires_on_relation_changed true bag = .ok none)
  ∧ validate_provider_schema missingHeaderAuthV1 = false
  ∧ validate_provider_schema wrongModeAuthV1 = false
  ∧ (∀ (r : JujuRelation) (j : Json),
        r.providerData.lookup "auth" = some (.json j) →
        Rev3.get_auth_config_from_relation_data true (some r) =
          .ok (some { auth := j, relation_id := r.id })) := by
  refine ⟨fun bag j hlook hval =>
      rev1_requires_no_event_of_invalid bag (.json j) hlook hval, rfl, rfl,
      fun r j hlook => ?_⟩
  unfold Rev3.get_auth_config_from_relation_data
  simp [hlook, DbVal.strTruthy]

/-- C1 witness: the amended statement applied to the concrete `wrong_mode`
document of the spec's scenario. -/
theorem c1_witness :
    Rev1.requires_on_relation_changed true
        [("grafana_auth", .json wrongModeAuthV1)] = .ok none :=
  c1_requirer_invalid_auth_no_event.1 _ wrongModeAuthV1 rfl rfl

/-- C2: the claim is right about the intent and revision 3, but revision 1's
code is a slip: both revision-1 emit calls omit the required `relation_id`
argument of their event constructors, so with schema-valid peer data the
handlers raise `TypeError` instead of emitting a tagged event.  Revision 3
does tag its events with the relation's id. -/
theorem c2_rev1_emit_omits_relation_id :
    (Rev1.provides_on_relation_changed true
        [("grafana_url", .json (.obj [("url", .str "https://grafana.example.com/")]))] =
      .error .typeError)
  ∧ (Rev1.requires_on_relation_changed true
        [("grafana_auth", .json validProxyAuthV1)] = .error .typeError)
  ∧ (Rev3.get_urls_from_relation_data true
        (some { id := 7, providerData := [],
                requirerData :=
                  [("urls", .json (.arr [.str "https://grafana.example.com/"]))] }) =
      .ok (some { urls := .arr [.str "https://grafana.example.com/"],
                  relation_id := 7 })) :=
  ⟨rfl, rfl, rfl⟩

/-- C3 counterexample: the claim fails in revision 3.
`AuthProvider._get_urls_from_relation_data` calls `json.loads` without a
guard, so a `urls` value that is not valid JSON raises `JSONDecodeError`
to the embedding application instead of being kept as a raw string. -/
theorem c3_counterexample :
    Rev3.get_urls_from_relation_data true
        (some { id := 1, providerData := [],
                requirerData := [("urls", .raw "hello")] }) =
      .error .jsonDecodeError := rfl

/-- C3 (amended): revision 1's `_load_relation_data` keeps a value that
fails JSON decoding as the raw string, and its requirer handler absorbs the
missing-key, invalid-schema and non-leader cases without raising; but
revision 3's read handlers decode without a guard, so a non-JSON mailbox
value raises `JSONDecodeError` to the embedding application. -/
theorem c3_decode_fallback_and_rev3_raise :
    (∀ (bag : Databag) (k s : String),
        bag.lookup k = some (.raw s) →
        List.lookup k (load_relation_data bag) = some (.str s))
  ∧ (∀ (bag : Databag),
        bag.lookup "grafana_auth" = none →
        Rev1.requires_on_relation_changed true bag = .ok none)
  ∧ (∀ (bag : Databag) (v : DbVal),
        bag.lookup "grafana_auth" = some v →
        validate_provider_schema v.decodeOrRaw = false →
        Rev1.requires_on_relation_changed true bag = .ok none)
  ∧ (∀ (bag : Databag), Rev1.requires_on_relation_changed false bag = .ok none)
  ∧ (∀ (r : JujuRelation) (s : String),
        r.requirerData.lookup "urls" = some (.raw s) → s ≠ "" →
        Rev3.get_urls_from_relation_data true (some r) = .error .jsonDecodeError) := by
  refine ⟨fun bag k s hlook => ?_, rev1_requires_no_event_of_missing,
      rev1_requires_no_event_of_invalid, fun bag => rfl,
      fun r s hlook hs => ?_⟩
  · rw [lookup_load_relation_data, hlook]; rfl
  · unfold Rev3.get_urls_from_relation_data
    simp [hlook, DbVal.strTruthy, hs]

/-- C3 witness: the amended statement applied to concrete inputs — a raw
value kept as a string, a missing key, a raw (hence schema-invalid) auth
value, a non-leader call, and the revision-3 raise. -/
theorem c3_witness :
    (List.lookup "k" (load_relation_data [("k", .raw "oops")]) =
        some (.str "oops"))
  ∧ Rev1.requires_on_relation_changed true [] = .ok none
  ∧ Rev1.requires_on_relation_changed true [("grafana_auth", .raw "oops")] = .ok none
  ∧ Rev1.requires_on_relation_changed false [("grafana_auth", .raw "oops")] = .ok none
  ∧ Rev3.get_urls_from_relation_data true
        (some { id := 1, providerData := [],
                requirerData := [("urls", .raw "oops")] }) = .error .jsonDecodeError :=
  ⟨c3_decode_fallback_and_rev3_raise.1 _ "k" "oops" rfl,
   c3_decode_fallback_and_rev3_raise.2.1 [] rfl,
   c3_decode_fallback_and_rev3_raise.2.2.1 _ (.raw "oops") rfl rfl,
   c3_decode_fallback_and_rev3_raise.2.2.2.1 _,
   c3_decode_fallback_and_rev3_raise.2.2.2.2 _ "oops" rfl (by simp)⟩

/-- C4 counterexample: in revision 1 a subsequent join does *not* always
leave an existing `grafana_auth` value unchanged: the guard is Python
truthiness of the decoded value, so an existing value decoding to the empty
object `{}` is overwritten by the leader's configuration. -/
theorem c4_counterexample :
    (Rev1.set_auth_config_in_relation_data true sampleAuthConfV1
        [("grafana_auth", .json (.obj []))] =
      [("grafana_auth", .json sampleAuthConfV1)])
  ∧ Json.obj [] ≠ sampleAuthConfV1 :=
  ⟨rfl, by simp [sampleAuthConfV1, Rev1.build_conf_dict]⟩

/-- C4 (amended): in revision 1 the leader's relation-joined handler
leaves an existing `grafana_auth` value unchanged when it decodes to a
truthy document and writes the configuration when the key is absent (an
existing value decoding to a falsy document is overwritten); in revision 3
the leader (re)writes `auth` on every relation-joined / leader-elected
delivery with an existing relation and a non-empty configuration, so the
mailbox ends with the current leader's configuration. -/
theorem c4_write_policy :
    (∀ (bag : Databag) (conf : Json) (v : DbVal),
        bag.lookup "grafana_auth" = some v → v.decodeOrRaw.isTruthy = true →
        Rev1.set_auth_config_in_relation_data true conf bag = bag)
  ∧ (∀ (bag : Databag) (conf : Json),
        bag.lookup "grafana_auth" = none →
        Rev1.set_auth_config_in_relation_data true conf bag =
          bag.insert "grafana_auth" (.json conf))
  ∧ (∀ (r : JujuRelation) (conf : Json) (vres : Bool),
        conf.isTruthy = true →
        (Rev3.set_auth_config_in_relation_data true conf vres (some r)).1 =
          some { r with
                   providerData := r.providerData.insert "auth" (.json conf) })
  ∧ (∀ (r : JujuRelation) (conf : Json) (vres : Bool),
        conf.isTruthy = true →
        ∃ r', (Rev3.set_auth_config_in_relation_data true conf vres (some r)).1 =
                some r'
            ∧ r'.providerData.lookup "auth" = some (.json conf)) := by
  have h3 : ∀ (r : JujuRelation) (conf : Json) (vres : Bool),
      conf.isTruthy = true →
      (Rev3.set_auth_config_in_relation_data true conf vres (some r)).1 =
        some { r with providerData := r.providerData.insert "auth" (.json conf) } := by
    intro r conf vres hconf
    unfold Rev3.set_auth_config_in_relation_data
    simp [hconf]
  refine ⟨fun bag conf v hlook htr => ?_, fun bag conf hlook => ?_, h3,
      fun r conf vres hconf => ⟨_, h3 r conf vres hconf, Databag.lookup_insert _ _ _⟩⟩
  · have hl : List.lookup "grafana_auth" (load_relation_data bag) =
        some v.decodeOrRaw := by
      rw [lookup_load_relation_data, hlook]; rfl
    unfold Rev1.set_auth_config_in_relation_data
    simp [hl, htr]
  · have hl : List.lookup "grafana_auth" (load_relation_data bag) = none := by
      rw [lookup_load_relation_data, hlook]; rfl
    unfold Rev1.set_auth_config_in_relation_data
    simp [hl]

/-- C4 witness: concrete instance — an existing truthy value survives a
join; an absent key is written; a revision-3 rewrite overwrites a stale
configuration. -/
theorem c4_witness :
    Rev1.set_auth_config_in_relation_data true sampleAuthConfV1
        [("grafana_auth", .json validProxyAuthV1)] =
      [("grafana_auth", .json validProxyAuthV1)]
  ∧ Rev1.set_auth_config_in_relation_data true sampleAuthConfV1 [] =
      Databag.insert [] "grafana_auth" (.json sampleAuthConfV1)
  ∧ (Rev3.set_auth_config_in_relation_data true exampleProxyConfig false
        (some { id := 4,
                providerData := [("auth", .json wrongModeAuthV3)],
                requirerData := [] })).1 =
      some { id := 4,
             providerData :=
               Databag.insert [("auth", .json wrongModeAuthV3)] "auth"
                 (.json exampleProxyConfig),
             requirerData := [] } :=
  ⟨c4_write_policy.1 _ sampleAuthConfV1 (.json validProxyAuthV1) rfl rfl,
   c4_write_policy.2.1 [] sampleAuthConfV1 rfl,
   c4_write_policy.2.2.1 _ exampleProxyConfig false rfl⟩

/-- C5: the revision-3 proxy provider with
`header_name="X-WEBAUTH-USER", header_property="username",
auto_sign_up=False` writes mailbox key `auth` with exactly the document of
the spec's scenario, and for all `(header_name, header_property)` the
published document's mode key and required options round-trip exactly
through serialize-then-parse. -/
theorem c5_proxy_publish_roundtrip :
    (Rev3.set_auth_config_in_relation_data true exampleProxyConfig
        (Rev3.proxy_validate_auth_config_json_schema exampleProxyConfig)
        (some { id := 0, providerData := [], requirerData := [] }) =
      (some { id := 0,
              providerData := [("auth", .json (.obj [("proxy", .obj
                [("enabled", .bool true),
                 ("header_name", .str "X-WEBAUTH-USER"),
                 ("header_property", .str "username"),
                 ("auto_sign_up", .bool false)])]))],
              requirerData := [] }, []))
  ∧ (∀ (hn hp : String) (asu : Bool) (r : JujuRelation) (vres : Bool),
        (Rev3.set_auth_config_in_relation_data true
            (Rev3.grafana_auth_proxy_provider_config hn hp asu none none none none none)
            vres (some r)).1 =
          some { r with
                   providerData := r.providerData.insert "auth"
                     (.json (Rev3.grafana_auth_proxy_provider_config
                        hn hp asu none none none none none)) })
  ∧ (∀ (hn hp : String) (asu : Bool),
        (DbVal.json (Rev3.grafana_auth_proxy_provider_config
            hn hp asu none none none none none)).decodeOrRaw =
          Rev3.grafana_auth_proxy_provider_config hn hp asu none none none none none
      ∧ (Rev3.grafana_auth_proxy_provider_config
            hn hp asu none none none none none).lookup "proxy" =
          some (.obj [("enabled", .bool true), ("header_name", .str hn),
                      ("header_property", .str hp), ("auto_sign_up", .bool asu)])
      ∧ (Json.obj [("enabled", .bool true), ("header_name", .str hn),
                   ("header_property", .str hp),
                   ("auto_sign_up", .bool asu)]).lookup "header_name" =
          some (.str hn)
      ∧ (Json.obj [("enabled", .bool true), ("header_name", .str hn),
                   ("header_property", .str hp),
                   ("auto_sign_up", .bool asu)]).lookup "header_property" =
          some (.str hp)) := by
  refine ⟨rfl, fun hn hp asu r vres => ?_, fun hn hp asu => ⟨rfl, rfl, rfl, rfl⟩⟩
  unfold Rev3.set_auth_config_in_relation_data
  simp [Rev3.grafana_auth_proxy_provider_config, Json.isTruthy]

/-- C6: every handler of both revisions, invoked on a non-leader unit,
returns with the databags byte-for-byte unchanged, no event emitted and
nothing logged. -/
theorem c6_non_leader_noop :
    (∀ (conf : Json) (bag : Databag),
        Rev1.set_auth_config_in_relation_data false conf bag = bag)
  ∧ (∀ (bag : Databag), Rev1.provides_on_relation_changed false bag = .ok none)
  ∧ (∀ (url : String) (bag : Databag),
        Rev1.set_grafana_url_in_relation_data false url bag = bag)
  ∧ (∀ (bag : Databag), Rev1.requires_on_relation_changed false bag = .ok none)
  ∧ (∀ (conf : Json) (vres : Bool) (rel : Option JujuRelation),
        Rev3.set_auth_config_in_relation_data false conf vres rel = (rel, []))
  ∧ (∀ (rel : Option JujuRelation),
        Rev3.get_urls_from_relation_data false rel = .ok none)
  ∧ (∀ (urls : List String) (rel : Option JujuRelation),
        Rev3.set_urls_in_relation_data false urls rel = (rel, []))
  ∧ (∀ (rel : Option JujuRelation),
        Rev3.get_auth_config_from_relation_data false rel = .ok none) :=
  ⟨fun _ _ => rfl, fun _ => rfl, fun _ _ => rfl, fun _ => rfl,
   fun _ _ _ => rfl, fun _ => rfl, fun _ _ => rfl, fun _ => rfl⟩

/-- C7: the value the revision-1 requirer's leader writes on join is always
non-empty and requirer-schema-valid (so the write guard of the claim is
satisfied at every write), and the revision-3 requirer writes `urls` iff
the configured list is non-empty — its schema self-check passes for every
list — and otherwise logs and skips, leaving the relation unchanged. -/
theorem c7_requirer_write_guard :
    (∀ (url : String) (bag : Databag),
        Rev1.set_grafana_url_in_relation_data true url bag =
          bag.insert "grafana_url" (.json (.obj [("url", .str url)]))
      ∧ (Json.obj [("url", .str url)]).isTruthy = true
      ∧ validate_requirer_schema_v1 (.obj [("url", .str url)]) = true)
  ∧ (∀ (urls : List String),
        validate_requirer_schema_v3 (.obj [("urls", .arr (urls.map .str))]) = true)
  ∧ (∀ (urls : List String) (r : JujuRelation),
        Rev3.set_urls_in_relation_data true urls (some r) =
          if urls.isEmpty then (some r, ["No urls were given"])
          else (some { r with
                         requirerData := r.requirerData.insert "urls"
                           (.json (.arr (urls.map .str))) }, [])) := by
  refine ⟨fun url bag => ⟨rfl, rfl, rfl⟩, fun urls => rfl, fun urls r => ?_⟩
  have hv : validate_requirer_schema_v3 (.obj [("urls", .arr (urls.map .str))]) =
      true := rfl
  unfold Rev3.set_urls_in_relation_data
  cases he : urls.isEmpty <;> simp [he, hv]

/-- C8 counterexample: revision 1's requirer schema does *not* enforce the
value's type: a document whose `url` value is the number `5` validates,
because the `url` subschema sits beside `required` instead of inside
`properties` and a draft-07 validator ignores the unrecognized keyword.
The claim says this document must fail validation. -/
theorem c8_counterexample :
    validate_requirer_schema_v1 (.obj [("url", .num 5)]) = true := rfl

/-- C8 (amended): both requirer schemas enforce only that the document is
an object containing the revision's key (`url` / `urls`) — the value under
the key is unconstrained, any type validating; a single URL string
validates revision 1 and a one-element array of strings validates
revision 3, and neither shape validates against the other revision's
schema. -/
theorem c8_requirer_schema_key_only :
    (∀ (v : Json), validate_requirer_schema_v1 (.obj [("url", v)]) = true)
  ∧ (∀ (v : Json), validate_requirer_schema_v3 (.obj [("urls", v)]) = true)
  ∧ (∀ (s : String), validate_requirer_schema_v1 (.obj [("url", .str s)]) = true)
  ∧ (∀ (s : String),
        validate_requirer_schema_v3 (.obj [("urls", .arr [.str s])]) = true)
  ∧ (∀ (s : String),
        validate_requirer_schema_v1 (.obj [("urls", .arr [.str s])]) = false)
  ∧ (∀ (s : String),
        validate_requirer_schema_v3 (.obj [("url", .str s)]) = false) :=
  ⟨fun _ => rfl, fun _ => rfl, fun _ => rfl, fun _ => rfl, fun _ => rfl,
   fun _ => rfl⟩

/-- C9: in revision 3, when the provider's JSON-schema self-check fails —
as the base `AuthProvider` implementation always does, returning `False` —
`_set_auth_config_in_relation_data` logs a warning but still writes the
configuration: for every leader invocation with a non-empty configuration
and an existing relation, the write happens regardless of the validation
result. -/
theorem c9_write_despite_invalid (r : JujuRelation) (conf : Json)
    (hconf : conf.isTruthy = true) :
    (Rev3.set_auth_config_in_relation_data true conf false (some r) =
      (some { r with providerData := r.providerData.insert "auth" (.json conf) },
       ["Authentication configuration did not pass JSON schema validation"]))
  ∧ (∀ (vres : Bool),
        (Rev3.set_auth_config_in_relation_data true conf vres (some r)).1 =
          some { r with
                   providerData := r.providerData.insert "auth" (.json conf) })
  ∧ Rev3.base_validate_auth_config_json_schema = false := by
  refine ⟨?_, fun vres => ?_, rfl⟩ <;>
    · unfold Rev3.set_auth_config_in_relation_data
      simp [hconf]

/-- C9 witness: the theorem applied to a concrete non-empty configuration
and relation. -/
theorem c9_witness :
    Rev3.set_auth_config_in_relation_data true exampleProxyConfig false
        (some { id := 0, providerData := [], requirerData := [] }) =
      (some { id := 0,
              providerData :=
                Databag.insert [] "auth" (.json exampleProxyConfig),
              requirerData := [] },
       ["Authentication configuration did not pass JSON schema validation"]) :=
  (c9_write_despite_invalid { id := 0, providerData := [], requirerData := [] }
    exampleProxyConfig rfl).1

/-- C10: revision 3's `AuthProvider.__init__` and `AuthRequirer.__init__`
index the first declared container before evaluating the length-one guard,
so a charm declaring zero containers raises `IndexError`, while
construction completes for every charm with at least one container
(observing the container's `pebble_ready` event exactly when there is one
container). -/
theorem c10_container_index :
    (Rev3.auth_provider_init_observe [] = .error .indexError)
  ∧ (Rev3.auth_requirer_init_observe [] = .error .indexError)
  ∧ (∀ (c : String) (cs : List String),
        Rev3.auth_provider_init_observe (c :: cs) =
          .ok (if cs.isEmpty then some c else none)
      ∧ Rev3.auth_requirer_init_observe (c :: cs) =
          .ok (if cs.isEmpty then some c else none)) :=
  ⟨rfl, rfl, fun _ _ => ⟨rfl, rfl⟩⟩
